import Mathlib

/-!
# Verification of the inoyb Docker build tool

A shallow embedding, in Lean 4, of the decision logic of the tool's three
Python modules (`src/docker/builder.py`, `src/docker/config.py`,
`src/cli.py`): project validation, image naming, base-image resolution,
image listing and retention pruning, temporary-Dockerfile lifecycle, and
the persisted configuration store.  External effects (the Docker engine,
the filesystem, random UUIDs) are modelled as explicit inputs; Python
strings are modelled by Lean `String` together with character-list
implementations of the Python string methods the code uses, so that every
definition evaluates inside the kernel.
-/

namespace Inoyb

/-! ## Python string primitives used by the code -/

/-- Embedding of Python `str.lower` as used on model names: characterwise
lowering (the names involved are ASCII, where `Char.toLower` agrees with
Python). -/
def pyLower (s : String) : String := ⟨s.data.map Char.toLower⟩

/-- Embedding of Python `str.replace(a, b)` for single-character `a`, `b`:
every occurrence of the character `a` is replaced by `b`. -/
def pyReplaceChar (s : String) (a b : Char) : String :=
  ⟨s.data.map (fun c => if c = a then b else c)⟩

/-- Left-to-right, non-overlapping replacement of the non-empty pattern
`pat` by `rep`, on character lists.  `fuel` bounds the recursion and is
instantiated with the length of the subject string, which suffices because
each step consumes at least one character of a non-empty pattern match or
copies one character. -/
def replaceFuel (pat rep : List Char) : Nat → List Char → List Char
  | 0, s => s
  | _ + 1, [] => []
  | fuel + 1, c :: rest =>
    if pat.isPrefixOf (c :: rest) then
      rep ++ replaceFuel pat rep fuel ((c :: rest).drop pat.length)
    else
      c :: replaceFuel pat rep fuel rest

/-- Embedding of Python `str.replace(pat, rep)` for a non-empty pattern. -/
def pyReplace (s pat rep : String) : String :=
  ⟨replaceFuel pat.data rep.data s.data.length s.data⟩

/-- Embedding of Python `str.split(sep)` for a single-character separator:
splits on every occurrence, keeping empty segments. -/
def splitChar (sep : Char) : List Char → List (List Char)
  | [] => [[]]
  | c :: rest =>
    match splitChar sep rest with
    | [] => [[]]
    | g :: gs => if c = sep then [] :: g :: gs else (c :: g) :: gs

/-- Embedding of Python `str.startswith(pre)`. -/
def pyStartsWith (s pre : String) : Bool := pre.data.isPrefixOf s.data

/-- Embedding of Python `str.strip()`: remove leading and trailing
whitespace. -/
def pyStrip (s : String) : String :=
  ⟨((s.data.dropWhile Char.isWhitespace).reverse.dropWhile Char.isWhitespace).reverse⟩

/-- Embedding of Python `sep.join(parts)`. -/
def pyJoin (sep : String) : List String → String
  | [] => ""
  | [x] => x
  | x :: xs => x ++ sep ++ pyJoin sep xs

/-- Helper for substring containment: does `sub` occur in `s`? -/
def containsAux (sub : List Char) : List Char → Bool
  | [] => sub.isPrefixOf []
  | c :: rest => sub.isPrefixOf (c :: rest) || containsAux sub rest

/-- Embedding of the Python containment test `sub in s`. -/
def pyContains (s sub : String) : Bool := containsAux sub.data s.data

/-! ## JSON values

The values produced by Python's `json.load`: `null`, booleans, numbers
(integers suffice for everything this code stores), strings, arrays and
objects.  Python dicts preserve insertion order, so objects are ordered
association lists. -/

inductive Json where
  | null : Json
  | bool : Bool → Json
  | num : Int → Json
  | str : String → Json
  | arr : List Json → Json
  | obj : List (String × Json) → Json
deriving Repr

/-- First binding of key `k` in an object's field list, like a Python dict
subscript/`get` on a dict whose keys are unique. -/
def lookupField : List (String × Json) → String → Option Json
  | [], _ => none
  | (k', v) :: rest, k => if k' = k then some v else lookupField rest k

/-- Python `d[k]` / `d.get(k)` on a JSON value: `none` models the
`KeyError`/`TypeError`/`AttributeError` raised when the value is not an
object or the key is absent. -/
def jget : Json → String → Option Json
  | .obj fields, k => lookupField fields k
  | _, _ => none

/-- Python `d[k] = v` on an object: an existing binding keeps its position,
a new key is appended at the end (Python dict insertion-order semantics). -/
def setPairs (l : List (String × Json)) (k : String) (v : Json) : List (String × Json) :=
  match l with
  | [] => [(k, v)]
  | (k', v') :: rest => if k' = k then (k, v) :: rest else (k', v') :: setPairs rest k v

/-- `j[k] = v` when `j` is an object, identity otherwise (the code only
assigns into values it has just subscripted as dicts). -/
def jset (j : Json) (k : String) (v : Json) : Json :=
  match j with
  | .obj l => .obj (setPairs l k v)
  | _ => j

/-- Python truthiness of a JSON value, as tested by `if current:`. -/
def truthy : Json → Bool
  | .null => false
  | .bool b => b
  | .num n => n != 0
  | .str s => s != ""
  | .arr l => !l.isEmpty
  | .obj l => !l.isEmpty

/-! ## The configuration store (`src/docker/config.py`)

The on-disk file `~/.inoyb/config.json` is modelled by
`Option (Option Json)`: `none` means the file does not exist, `some none`
that it exists but cannot be read or parsed as JSON, `some (some j)` that
it parses to `j` (we assume `json.dump`/`json.load` round-trip JSON values
faithfully). -/

/-- On-disk state of the configuration file. -/
abbrev Disk := Option (Option Json)

/-- `DockerConfig._default_config` (config.py lines 41-50). -/
def defaultConfig : Json :=
  .obj [("docker", .obj [
    ("default_server", .str "tcp://docker.inoyb.com:2376"),
    ("current_server", .null),
    ("registries", .obj [("default", .str "registry.inoyb.com/inoyb")]),
    ("cleanup", .obj [("keep_images", .num 3), ("auto_cleanup", .bool true)])])]

/-- `DockerConfig._load_config` (config.py lines 30-39): a missing file or
any read/parse failure silently falls back to the default configuration. -/
def loadConfig : Disk → Json
  | some (some j) => j
  | _ => defaultConfig

/-- In-memory configuration plus the on-disk file it is backed by. -/
structure ConfigState where
  config : Json
  disk : Disk
deriving Repr

/-- `DockerConfig.__init__`: load the configuration from disk. -/
def initConfig (d : Disk) : ConfigState := ⟨loadConfig d, d⟩

/-- `DockerConfig.save_config` (config.py lines 52-55): write the in-memory
configuration to disk. -/
def saveConfig (s : ConfigState) : ConfigState := ⟨s.config, some (some s.config)⟩

/-- A process restart: a fresh `DockerConfig` constructed over the same
disk. -/
def restart (s : ConfigState) : ConfigState := initConfig s.disk

/-- `DockerConfig.get_docker_host` (config.py lines 57-62): the
`current_server` override if truthy, else `default_server`.  `none` models
the exception raised when the configuration lacks the expected shape. -/
def getDockerHost (config : Json) : Option Json :=
  match jget config "docker" with
  | some (Json.obj fields) =>
    let current := (lookupField fields "current_server").getD Json.null
    if truthy current then some current else lookupField fields "default_server"
  | _ => none

/-- `DockerConfig.set_docker_host` (config.py lines 64-67): set the
override and persist immediately. -/
def setDockerHost (host : String) (s : ConfigState) : Option ConfigState :=
  match jget s.config "docker" with
  | some (Json.obj fields) =>
    some (saveConfig ⟨jset s.config "docker"
      (Json.obj (setPairs fields "current_server" (Json.str host))), s.disk⟩)
  | _ => none

/-- `DockerConfig.set_default_server` (config.py lines 69-72): clear the
override and persist immediately. -/
def setDefaultServer (s : ConfigState) : Option ConfigState :=
  match jget s.config "docker" with
  | some (Json.obj fields) =>
    some (saveConfig ⟨jset s.config "docker"
      (Json.obj (setPairs fields "current_server" Json.null)), s.disk⟩)
  | _ => none

/-- `DockerConfig.is_using_default_server` (config.py lines 74-76). -/
def isUsingDefaultServer (config : Json) : Option Bool :=
  match jget config "docker" with
  | some (Json.obj fields) =>
    some (match (lookupField fields "current_server").getD Json.null with
          | Json.null => true
          | _ => false)
  | _ => none

/-- `DockerConfig.get_registry` (config.py lines 78-80). -/
def getRegistry (config : Json) : Option Json :=
  match jget config "docker" with
  | some d =>
    match jget d "registries" with
    | some r => jget r "default"
    | none => none
  | none => none

/-- `DockerConfig.get_cleanup_settings` (config.py lines 82-84). -/
def getCleanupSettings (config : Json) : Option Json :=
  match jget config "docker" with
  | some d => jget d "cleanup"
  | none => none

/-! ## Project validation (`src/docker/builder.py`)

A project directory is modelled by the observations `validate_project` and
`check_nested_directories` make of it: its top-level entries (name, whether
each is a directory, and — for directories — their immediate children), and
the result of parsing `mc.json` (`none` = the file cannot be read or parsed
as JSON). -/

/-- An immediate child of a directory: its name and whether it is itself a
directory. -/
structure Child where
  name : String
  isDir : Bool
deriving Repr, DecidableEq

/-- A top-level entry of the project directory. -/
structure FEntry where
  name : String
  isDir : Bool
  children : List Child
deriving Repr, DecidableEq

/-- The project directory as observed by the validator. -/
structure Proj where
  entries : List FEntry
  mcParse : Option Json
deriving Repr

/-- Path lookup in the project directory (`(project_path / name).exists()`
is `isSome` of this). -/
def findEntry (p : Proj) (name : String) : Option FEntry :=
  p.entries.find? (fun e => e.name == name)

/-- `DockerBuilder.check_nested_directories` (builder.py lines 60-88), over
the observations the code makes: whether the path exists, whether it is a
directory, and its children.  `true` means the structure is fine, `false`
that the disallowed self-nesting was detected. -/
def check_nested_directories (ex isDir : Bool) (contents : List Child) (dirName : String) : Bool :=
  if !ex || !isDir then true
  else
    match contents with
    | [] => true
    | [c] => !(c.isDir && c.name == dirName)
    | _ => true

/-- The fixed required-file list of `validate_project` (builder.py line 163). -/
def requiredFiles : List String := ["gogogo.py", "mc.json", "requirements.txt"]

/-- One iteration of the required-file loop (builder.py lines 166-171):
`some m` is the entry appended to `missing_files`, `none` means the file is
present and is a file. -/
def missingMark (p : Proj) (file : String) : Option String :=
  match findEntry p file with
  | none => some file
  | some e => if e.isDir then some (file ++ " (不是文件)") else none

/-- The `missing_files` list accumulated by the loop in `validate_project`
(builder.py lines 165-171). -/
def missingFilesOf (p : Proj) : List String :=
  requiredFiles.foldl (fun acc f =>
    match missingMark p f with
    | some m => acc ++ [m]
    | none => acc) []

/-- The distinct failures `validate_project` can raise, one constructor per
`raise` site (builder.py lines 174-236).  Non-string and empty
`model_info.name` share a single site and hence a single constructor. -/
inductive VError where
  | missingFiles (names : List String)
  | missingModelDir
  | modelNotDir
  | modelNested
  | examplesNested
  | mcJsonBad
  | rootNotObject
  | missingModelInfo
  | modelInfoNotObject
  | missingName
  | nameNotNonEmptyString
deriving Repr, DecidableEq

/-- The human-readable message attached to each failure (the static part of
each `raise` in builder.py; the dynamic exception text appended to the
`mc.json` parse failure is omitted). -/
def errorMessage : VError → String
  | .missingFiles names => "❌ 项目结构不正确，缺少必需文件: " ++ pyJoin ", " names
  | .missingModelDir => "❌ 项目结构不正确，缺少model目录"
  | .modelNotDir => "❌ model不是目录"
  | .modelNested => "❌ model目录存在多余的嵌套结构，请修正后重试"
  | .examplesNested => "❌ examples目录存在多余的嵌套结构，请修正后重试"
  | .mcJsonBad => "❌ mc.json格式错误"
  | .rootNotObject => "❌ mc.json根元素必须是对象"
  | .missingModelInfo => "❌ mc.json中缺少model_info字段"
  | .modelInfoNotObject => "❌ mc.json中model_info必须是对象"
  | .missingName => "❌ mc.json中缺少model_info.name字段"
  | .nameNotNonEmptyString => "❌ mc.json中model_info.name必须是非空字符串"

/-- Steps 5-6 of `validate_project` (builder.py lines 210-236): parse and
validate `mc.json`.  The argument is the parse result (`none` = the file
cannot be read or parsed). -/
def mcChecks (parsed : Option Json) : Except VError Unit :=
  match parsed with
  | none => .error .mcJsonBad
  | some mcConfig =>
    match mcConfig with
    | Json.obj _ =>
      match jget mcConfig "model_info" with
      | none => .error .missingModelInfo
      | some modelInfo =>
        match modelInfo with
        | Json.obj _ =>
          match jget modelInfo "name" with
          | none => .error .missingName
          | some nameVal =>
            match nameVal with
            | Json.str s =>
              if pyStrip s == "" then .error .nameNotNonEmptyString
              else .ok ()
            | _ => .error .nameNotNonEmptyString
        | _ => .error .modelInfoNotObject
    | _ => .error .rootNotObject

/-- `DockerBuilder.validate_project` (builder.py lines 152-242): required
files, the `model` directory, the nesting checks, the optional `examples`
directory, and the manifest checks, in the code's order.  Returns the
parsed manifest and the `has_examples` flag. -/
def validate_project (p : Proj) : Except VError (Json × Bool) :=
  let missing := missingFilesOf p
  if missing.isEmpty then
    match findEntry p "model" with
    | none => .error .missingModelDir
    | some m =>
      if m.isDir then
        if check_nested_directories true true m.children "model" then
          let exEntry := findEntry p "examples"
          let hasExamples := match exEntry with
            | none => false
            | some e => e.isDir
          let exNestedOk := match exEntry with
            | none => true
            | some e =>
              if e.isDir then check_nested_directories true true e.children "examples"
              else true
          if exNestedOk then
            match p.mcParse with
            | none => .error .mcJsonBad
            | some mcConfig =>
              match mcChecks (some mcConfig) with
              | .error e => .error e
              | .ok _ => .ok (mcConfig, hasExamples)
          else .error .examplesNested
        else .error .modelNested
      else .error .modelNotDir
  else .error (.missingFiles missing)

/-! ## Image naming and base-image resolution -/

/-- The `clean_name` transform of `generate_image_name` (builder.py
line 41): lower-case, then replace spaces and underscores by "-". -/
def sanitized (modelName : String) : String :=
  pyReplaceChar (pyReplaceChar (pyLower modelName) ' ' '-') '_' '-'

/-- `DockerBuilder.generate_image_name` (builder.py lines 39-43).
`uuidHex` models `uuid.uuid4().hex`, a 32-character lowercase hexadecimal
string, of which the first 8 characters are used. -/
def generate_image_name (modelName : String) (uuidHex : List Char) : String :=
  sanitized modelName ++ "-" ++ ⟨uuidHex.take 8⟩

/-- The lowercase hexadecimal alphabet of `uuid.uuid4().hex`. -/
def hexDigits : List Char := "0123456789abcdef".data

/-- The fixed interpreter-version table of `get_python_version` (builder.py
lines 50-56). -/
def version_map : List ((Nat × Nat) × String) :=
  [((3, 8), "python:3.8-slim"),
   ((3, 9), "python:3.9-slim"),
   ((3, 10), "python:3.10-slim"),
   ((3, 11), "python:3.11-slim"),
   ((3, 12), "python:3.12-slim")]

/-- `DockerBuilder.get_python_version` (builder.py lines 45-58), over the
running interpreter's `(major, minor)` version: table lookup with the fixed
fallback `"python:3.11-slim"`. -/
def get_python_version (v : Nat × Nat) : String :=
  (version_map.lookup v).getD "python:3.11-slim"

/-! ## Image listing and retention pruning -/

/-- One listed image: a namespaced tag and its creation timestamp (the
`Created` attribute, on which the listing sorts; modelled as a `Nat` so
that comparisons are the code's comparisons). -/
structure ImageInfo where
  name : String
  created : Nat
deriving Repr, DecidableEq

/-- The `project_filter is None or project_filter in tag` test of
`list_local_images` (builder.py line 325). -/
def matchesFilter (filt : Option String) (tag : String) : Bool :=
  match filt with
  | none => true
  | some f => pyContains tag f

/-- Stable insertion of `x` into a list sorted by descending `created`:
`x` goes before the first strictly older element, after equally old ones. -/
def insertDesc (x : ImageInfo) : List ImageInfo → List ImageInfo
  | [] => [x]
  | y :: ys => if y.created < x.created then x :: y :: ys else y :: insertDesc x ys

/-- Stable sort by descending `created`, the semantics of
`sorted(key created, reverse=True)` (builder.py line 328). -/
def sortDesc (l : List ImageInfo) : List ImageInfo :=
  l.foldl (fun acc x => insertDesc x acc) []

/-- `DockerBuilder.list_local_images` (builder.py lines 309-332) over the
engine's raw image list (one record per tag): keep the `inoyb/` namespace,
apply the optional substring filter, sort newest-first. -/
def listLocalImages (raw : List ImageInfo) (filt : Option String) : List ImageInfo :=
  sortDesc (raw.filter (fun i => pyStartsWith i.name "inoyb/" && matchesFilter filt i.name))

/-- The project-name inference of `cleanup_old_images` (builder.py lines
354-357): strip `"inoyb/"`, split on `"-"`, and when more than one part
remains, rejoin all but the last (the trailing random suffix); `none` when
the tag has no `"-"` and the image is skipped by the grouping. -/
def projectOf (name : String) : Option String :=
  let parts := splitChar '-' (pyReplace name "inoyb/" "").data
  if parts.length > 1 then some ⟨List.intercalate ['-'] parts.dropLast⟩ else none

/-- Appending an image to its project's group, preserving dict insertion
order (builder.py lines 357-360). -/
def addToGroups (gs : List (String × List ImageInfo)) (p : String) (img : ImageInfo) :
    List (String × List ImageInfo) :=
  match gs with
  | [] => [(p, [img])]
  | (q, imgs) :: rest =>
    if q = p then (q, imgs ++ [img]) :: rest
    else (q, imgs) :: addToGroups rest p img

/-- The `project_groups` dict built by `cleanup_old_images` (builder.py
lines 352-360). -/
def buildGroups (l : List ImageInfo) : List (String × List ImageInfo) :=
  l.foldl (fun gs img =>
    match projectOf img.name with
    | some p => addToGroups gs p img
    | none => gs) []

/-- The removals `cleanup_old_images` attempts (builder.py lines 346-368):
nothing when the listing does not exceed `keep_count`, otherwise, group by
group, the members past the first `keep_count` of each over-threshold
group. -/
def cleanupAttempts (raw : List ImageInfo) (keepCount : Nat) : List ImageInfo :=
  let images := listLocalImages raw none
  if images.length ≤ keepCount then []
  else
    (buildGroups images).foldl (fun acc g =>
      if keepCount < g.2.length then acc ++ g.2.drop keepCount else acc) []

/-- `DockerBuilder.cleanup_old_images` (builder.py lines 344-371).
`removeOk` models whether the engine-side `remove_image` (lines 334-342,
which returns `False` on failure instead of raising) succeeds for a given
tag; the returned count increments exactly on successful removals. -/
def cleanup_old_images (removeOk : String → Bool) (raw : List ImageInfo) (keepCount : Nat) : Nat :=
  let images := listLocalImages raw none
  if images.length ≤ keepCount then 0
  else
    (buildGroups images).foldl (fun cnt g =>
      if keepCount < g.2.length then
        (g.2.drop keepCount).foldl (fun c img => if removeOk img.name then c + 1 else c) cnt
      else cnt) 0

/-! ## Temporary Dockerfile lifecycle in `build_image` -/

/-- How the portion of `build_image` after the Dockerfile is written can
end: the write itself raises, the engine build raises, or the build
succeeds with an image id. -/
inductive BuildOutcome where
  | writeFails : BuildOutcome
  | engineFails : BuildOutcome
  | engineSucceeds (imageId : String) : BuildOutcome
deriving Repr, DecidableEq

/-- The exceptions propagating out of the `try:` block. -/
inductive BuildError where
  | writeError : BuildError
  | engineError : BuildError
deriving Repr, DecidableEq

/-- Whether the temporary `Dockerfile.inoyb` exists. -/
structure BuildFS where
  dockerfileExists : Bool
deriving Repr, DecidableEq

/-- The `try:` block of `build_image` (builder.py lines 277-301): opening
the temporary Dockerfile for writing creates it, so on every outcome the
file exists when the block is left. -/
def buildTryBody (fullImageName : String) (outcome : BuildOutcome) :
    Except BuildError (String × String) × BuildFS :=
  match outcome with
  | .writeFails => (.error .writeError, ⟨true⟩)
  | .engineFails => (.error .engineError, ⟨true⟩)
  | .engineSucceeds imageId => (.ok (fullImageName, imageId), ⟨true⟩)

/-- The `finally:` block of `build_image` (builder.py lines 303-307):
unlink the temporary Dockerfile if it exists. -/
def finallyCleanup (fs : BuildFS) : BuildFS :=
  if fs.dockerfileExists then ⟨false⟩ else fs

/-- `build_image` from the point the rendered Dockerfile is written
(builder.py lines 277-307): the `try:` body followed by the `finally:`
cleanup, returning the build result (or propagated error) and the final
filesystem state. -/
def build_image (fullImageName : String) (outcome : BuildOutcome) :
    Except BuildError (String × String) × BuildFS :=
  let r := buildTryBody fullImageName outcome
  (r.1, finallyCleanup r.2)

/-! ## Helper lemmas -/

theorem mem_insertDesc {a x : ImageInfo} {l : List ImageInfo} :
    a ∈ insertDesc x l ↔ a = x ∨ a ∈ l := by
  induction l with
  | nil => simp [insertDesc]
  | cons y ys ih =>
    simp only [insertDesc]
    split
    · simp [List.mem_cons]
    · simp only [List.mem_cons, ih]
      tauto

theorem insertDesc_sorted (x : ImageInfo) (l : List ImageInfo)
    (h : l.Pairwise (fun a b => b.created ≤ a.created)) :
    (insertDesc x l).Pairwise (fun a b => b.created ≤ a.created) := by
  induction l with
  | nil => simp [insertDesc]
  | cons y ys ih =>
    rcases List.pairwise_cons.mp h with ⟨hy, hys⟩
    simp only [insertDesc]
    split
    · rename_i hlt
      refine List.pairwise_cons.mpr ⟨?_, h⟩
      intro z hz
      rcases List.mem_cons.mp hz with rfl | hz'
      · exact Nat.le_of_lt hlt
      · exact le_trans (hy z hz') (Nat.le_of_lt hlt)
    · rename_i hnlt
      refine List.pairwise_cons.mpr ⟨?_, ih hys⟩
      intro z hz
      rcases mem_insertDesc.mp hz with rfl | hz'
      · exact Nat.le_of_not_lt hnlt
      · exact hy z hz'

theorem sortDesc_sorted (l : List ImageInfo) :
    (sortDesc l).Pairwise (fun a b => b.created ≤ a.created) := by
  suffices h : ∀ acc, acc.Pairwise (fun a b => b.created ≤ a.created) →
      (l.foldl (fun acc x => insertDesc x acc) acc).Pairwise
        (fun a b => b.created ≤ a.created) by
    exact h [] (by simp)
  induction l with
  | nil => intro acc hacc; simpa using hacc
  | cons x xs ih => intro acc hacc; exact ih _ (insertDesc_sorted x acc hacc)

theorem listLocalImages_sorted (raw : List ImageInfo) (filt : Option String) :
    (listLocalImages raw filt).Pairwise (fun a b => b.created ≤ a.created) :=
  sortDesc_sorted _

theorem buildGroups_aux (p : String) :
    ∀ (l : List ImageInfo) (acc : List ImageInfo),
      (∀ i ∈ l, projectOf i.name = some p) →
      (l.foldl (fun gs img => match projectOf img.name with
         | some q => addToGroups gs q img
         | none => gs) [(p, acc)]) = [(p, acc ++ l)] := by
  intro l
  induction l with
  | nil => intro acc _; simp
  | cons i l' ih =>
    intro acc h
    have hi := h i (by simp)
    simp only [List.foldl_cons, hi]
    show List.foldl _ (addToGroups [(p, acc)] p i) l' = [(p, acc ++ i :: l')]
    have hadd : addToGroups [(p, acc)] p i = [(p, acc ++ [i])] := by simp [addToGroups]
    rw [hadd, ih (acc ++ [i]) (fun j hj => h j (by simp [hj]))]
    simp

theorem buildGroups_single (l : List ImageInfo) (p : String)
    (h : ∀ i ∈ l, projectOf i.name = some p) (hne : l ≠ []) :
    buildGroups l = [(p, l)] := by
  cases l with
  | nil => exact absurd rfl hne
  | cons i l' =>
    have hi := h i (by simp)
    simp only [buildGroups, List.foldl_cons, hi]
    show List.foldl _ (addToGroups [] p i) l' = [(p, i :: l')]
    have hadd : addToGroups [] p i = [(p, [i])] := rfl
    rw [hadd]
    simpa using buildGroups_aux p l' [i] (fun j hj => h j (by simp [hj]))

theorem count_foldl (removeOk : String → Bool) :
    ∀ (l : List ImageInfo) (c : Nat),
      l.foldl (fun c img => if removeOk img.name then c + 1 else c) c
        = c + (l.filter (fun i => removeOk i.name)).length := by
  intro l
  induction l with
  | nil => intro c; simp
  | cons i l' ih =>
    intro c
    simp only [List.foldl_cons, List.filter_cons]
    by_cases h : removeOk i.name
    · simp only [if_pos h, ih]
      simp [Nat.add_comm, Nat.add_assoc, Nat.add_left_comm]
    · simp [h, ih]

theorem attempts_foldl (K : Nat) :
    ∀ (gs : List (String × List ImageInfo)) (acc : List ImageInfo),
      gs.foldl (fun acc g => if K < g.2.length then acc ++ g.2.drop K else acc) acc
        = acc ++ (gs.map (fun g => if K < g.2.length then g.2.drop K else [])).flatten := by
  intro gs
  induction gs with
  | nil => intro acc; simp
  | cons g gs' ih =>
    intro acc
    simp only [List.foldl_cons, List.map_cons, List.flatten_cons]
    by_cases h : K < g.2.length
    · simp [h, ih, List.append_assoc]
    · simp [h, ih]

theorem cnt_foldl (K : Nat) (removeOk : String → Bool) :
    ∀ (gs : List (String × List ImageInfo)) (c : Nat),
      gs.foldl (fun cnt g => if K < g.2.length then
          (g.2.drop K).foldl (fun c img => if removeOk img.name then c + 1 else c) cnt
        else cnt) c
        = c + (((gs.map (fun g => if K < g.2.length then g.2.drop K else [])).flatten).filter
            (fun i => removeOk i.name)).length := by
  intro gs
  induction gs with
  | nil => intro c; simp
  | cons g gs' ih =>
    intro c
    simp only [List.foldl_cons, List.map_cons, List.flatten_cons]
    by_cases h : K < g.2.length
    · simp only [if_pos h]
      rw [count_foldl, ih, List.filter_append, List.length_append]
      omega
    · simp [h, ih]

theorem lookupField_setPairs_self (l : List (String × Json)) (k : String) (v : Json) :
    lookupField (setPairs l k v) k = some v := by
  induction l with
  | nil => simp [setPairs, lookupField]
  | cons kv rest ih =>
    obtain ⟨k', v'⟩ := kv
    simp only [setPairs]
    by_cases h : k' = k
    · simp [h, lookupField]
    · simp [h, lookupField, ih]

theorem lookupField_setPairs_ne (l : List (String × Json)) (k : String) (v : Json)
    (k' : String) (h : k' ≠ k) :
    lookupField (setPairs l k v) k' = lookupField l k' := by
  have hk : k ≠ k' := fun hkk => h hkk.symm
  induction l with
  | nil => simp [setPairs, lookupField, hk]
  | cons kv rest ih =>
    obtain ⟨k0, v0⟩ := kv
    simp only [setPairs]
    by_cases h0 : k0 = k
    · subst h0
      simp [lookupField, hk]
    · simp only [if_neg h0, lookupField]
      by_cases h1 : k0 = k'
      · simp [h1]
      · simp [h1, ih]

theorem missing_foldl (p : Proj) :
    ∀ (fs : List String) (acc : List String),
      fs.foldl (fun acc f => match missingMark p f with
        | some m => acc ++ [m]
        | none => acc) acc = acc ++ fs.filterMap (missingMark p) := by
  intro fs
  induction fs with
  | nil => intro acc; simp
  | cons f fs' ih =>
    intro acc
    simp only [List.foldl_cons, List.filterMap_cons]
    cases h : missingMark p f with
    | none => simp [h, ih]
    | some m => simp [h, ih]

/-! ## The claims -/

/-- C3: the nesting check fails (returns `false`) exactly when the checked
directory exists, is a directory, and contains exactly one entry that is
itself a directory whose name equals the parent's conventional name; zero
entries, two or more entries, one differently-named child, and one
same-named non-directory child all pass this specific check. -/
theorem check_nested_wrong_iff :
    ∀ (ex isDir : Bool) (contents : List Child) (dirName : String),
      check_nested_directories ex isDir contents dirName = false ↔
        (ex = true ∧ isDir = true ∧
          ∃ c : Child, contents = [c] ∧ c.isDir = true ∧ c.name = dirName) := by
  intro ex isDir contents dirName
  cases ex <;> cases isDir <;>
    rcases contents with _ | ⟨c, _ | ⟨c2, cs⟩⟩ <;>
    simp [check_nested_directories]

/-- C5: `generate_image_name` lower-cases the model name and replaces every
space and underscore with the separator "-" (second conjunct,
characterwise); in particular, for every 8-or-more-character lowercase
hexadecimal random suffix, the name generated for "My Model_X" is
"my-model-x" followed by "-" and exactly 8 lowercase hexadecimal
characters (first conjunct). -/
theorem generate_image_name_spec :
    (∀ hex : List Char, hex.length = 32 → (∀ c ∈ hex, c ∈ hexDigits) →
      (generate_image_name "My Model_X" hex).data = "my-model-x-".data ++ hex.take 8 ∧
      (hex.take 8).length = 8 ∧ ∀ c ∈ hex.take 8, c ∈ hexDigits) ∧
    (∀ s : String, (sanitized s).data
        = s.data.map (fun c =>
            if c.toLower = ' ' ∨ c.toLower = '_' then '-' else c.toLower)) := by
  constructor
  · intro hex hlen hmem
    refine ⟨rfl, ?_, ?_⟩
    · rw [List.length_take, hlen]
      decide
    · intro c hc
      exact hmem c (List.take_subset 8 hex hc)
  · intro s
    simp only [sanitized, pyReplaceChar, pyLower, List.map_map]
    refine congrArg (fun f => List.map f s.data) ?_
    funext c
    by_cases h1 : c.toLower = ' '
    · simp [Function.comp, h1]
    · by_cases h2 : c.toLower = '_'
      · simp [Function.comp, h1, h2]
      · simp [Function.comp, h1, h2]

/-- Witness for C5 at the concrete suffix `uuid.uuid4().hex =`
"0123456789abcdef0123456789abcdef". -/
theorem generate_image_name_spec_witness :
    (generate_image_name "My Model_X" "0123456789abcdef0123456789abcdef".data).data
        = "my-model-x-".data ++ "0123456789abcdef0123456789abcdef".data.take 8 ∧
    ("0123456789abcdef0123456789abcdef".data.take 8).length = 8 ∧
    ∀ c ∈ "0123456789abcdef0123456789abcdef".data.take 8, c ∈ hexDigits :=
  generate_image_name_spec.1 "0123456789abcdef0123456789abcdef".data (by decide) (by decide)

/-- C6 counterexample: the version `(3, 13)` is not in the table and falls
back to `"python:3.11-slim"`, which is not the newest table entry — the
newest entry is `((3, 12), "python:3.12-slim")`. -/
theorem get_python_version_fallback_cx :
    version_map.lookup (3, 13) = none ∧
    get_python_version (3, 13) = "python:3.11-slim" ∧
    get_python_version (3, 13) ≠ "python:3.12-slim" ∧
    ((3, 12), "python:3.12-slim") ∈ version_map ∧
    (∀ kv ∈ version_map, kv.1.1 = 3 ∧ kv.1.2 ≤ 12) := by
  refine ⟨by decide, by decide, by decide, by decide, by decide⟩

/-- C6 amended: every version in the fixed table resolves to its table
entry, and every version not in the table falls back to the fixed default
`"python:3.11-slim"` (the table's `(3, 11)` entry, not its newest one). -/
theorem get_python_version_resolution :
    (∀ (v : Nat × Nat) (e : String), (v, e) ∈ version_map → get_python_version v = e) ∧
    (∀ v : Nat × Nat, version_map.lookup v = none →
      get_python_version v = "python:3.11-slim") := by
  constructor
  · intro v e h
    fin_cases h <;> rfl
  · intro v h
    unfold get_python_version
    rw [h]
    rfl

/-- Witness for C6 amended: a version in the table and one outside it. -/
theorem get_python_version_resolution_witness :
    get_python_version (3, 9) = "python:3.9-slim" ∧
    get_python_version (3, 13) = "python:3.11-slim" :=
  ⟨get_python_version_resolution.1 (3, 9) "python:3.9-slim" (by decide),
   get_python_version_resolution.2 (3, 13) (by decide)⟩

/-- C9: on every exit path of `build_image` after the rendered Dockerfile
has been written — write failure, engine failure, or success — the
`finally:` cleanup leaves the temporary Dockerfile absent; on success the
tag and image id are returned. -/
theorem build_image_cleanup :
    ∀ (name : String) (outcome : BuildOutcome),
      ((build_image name outcome).2).dockerfileExists = false ∧
      (∀ imageId, (build_image name (.engineSucceeds imageId)).1 = .ok (name, imageId)) := by
  intro name outcome
  constructor
  · cases outcome <;> rfl
  · intro imageId
    rfl

/-- C10: when the configuration file exists but cannot be read or parsed
(disk state `some none`), loading silently yields the built-in defaults —
no error value exists on this path — and every getter returns the default
values; the first mutation then persists the in-memory configuration to
the file. -/
theorem load_config_fallback :
    initConfig (some none) = ⟨defaultConfig, some none⟩ ∧
    getDockerHost (initConfig (some none)).config
        = some (Json.str "tcp://docker.inoyb.com:2376") ∧
    getRegistry (initConfig (some none)).config
        = some (Json.str "registry.inoyb.com/inoyb") ∧
    getCleanupSettings (initConfig (some none)).config
        = some (Json.obj [("keep_images", Json.num 3), ("auto_cleanup", Json.bool true)]) ∧
    isUsingDefaultServer (initConfig (some none)).config = some true ∧
    (∀ host : String, ∃ s1, setDockerHost host (initConfig (some none)) = some s1 ∧
      s1.disk = some (some s1.config)) := by
  refine ⟨rfl, rfl, rfl, rfl, rfl, ?_⟩
  intro host
  exact ⟨_, rfl, rfl⟩

/-- C1: over a listing whose namespaced images form a single inferred
project group of `N` images, `cleanup_old_images` with keep-count `K < N`
attempts exactly the removals past the first `K` of the newest-first
listing — `N − K` of them, and each attempted image is at most as recent
as every kept image, i.e. they are the `N − K` oldest by creation
timestamp; with `K ≥ N` nothing is attempted and `0` is returned. -/
theorem cleanup_old_images_retention (raw : List ImageInfo) (K N : Nat) (p : String)
    (removeOk : String → Bool)
    (hp : ∀ i ∈ listLocalImages raw none, projectOf i.name = some p)
    (hN : (listLocalImages raw none).length = N) :
    (K < N →
      cleanupAttempts raw K = (listLocalImages raw none).drop K ∧
      (cleanupAttempts raw K).length = N - K ∧
      ∀ a ∈ cleanupAttempts raw K, ∀ b ∈ (listLocalImages raw none).take K,
        a.created ≤ b.created) ∧
    (N ≤ K → cleanupAttempts raw K = [] ∧ cleanup_old_images removeOk raw K = 0) := by
  constructor
  · intro hK
    have hne : listLocalImages raw none ≠ [] := by
      intro h0
      rw [h0] at hN
      simp at hN
      omega
    have hgroups : buildGroups (listLocalImages raw none)
        = [(p, listLocalImages raw none)] := buildGroups_single _ p hp hne
    have hlen : ¬ (listLocalImages raw none).length ≤ K := by omega
    have hKlen : K < (listLocalImages raw none).length := by omega
    have hattempts : cleanupAttempts raw K = (listLocalImages raw none).drop K := by
      simp [cleanupAttempts, if_neg hlen, hgroups, hKlen]
    refine ⟨hattempts, ?_, ?_⟩
    · rw [hattempts, List.length_drop, hN]
    · intro a ha b hb
      rw [hattempts] at ha
      have hpw := listLocalImages_sorted raw none
      rw [← List.take_append_drop K (listLocalImages raw none)] at hpw
      exact (List.pairwise_append.mp hpw).2.2 b hb a ha
  · intro hK
    have hlen : (listLocalImages raw none).length ≤ K := by omega
    exact ⟨by simp [cleanupAttempts, hlen], by simp [cleanup_old_images, hlen]⟩

/-- Witness for C1: three images of one project group, keep-counts 1
(below the group size) and 5 (at least the group size). -/
theorem cleanup_old_images_retention_witness :
    (cleanupAttempts ([⟨"inoyb/demo-a1", 10⟩, ⟨"inoyb/demo-b2", 30⟩,
          ⟨"inoyb/demo-c3", 20⟩] : List ImageInfo) 1
        = (listLocalImages ([⟨"inoyb/demo-a1", 10⟩, ⟨"inoyb/demo-b2", 30⟩,
          ⟨"inoyb/demo-c3", 20⟩] : List ImageInfo) none).drop 1 ∧
      (cleanupAttempts ([⟨"inoyb/demo-a1", 10⟩, ⟨"inoyb/demo-b2", 30⟩,
          ⟨"inoyb/demo-c3", 20⟩] : List ImageInfo) 1).length = 3 - 1 ∧
      ∀ a ∈ cleanupAttempts ([⟨"inoyb/demo-a1", 10⟩, ⟨"inoyb/demo-b2", 30⟩,
          ⟨"inoyb/demo-c3", 20⟩] : List ImageInfo) 1,
        ∀ b ∈ (listLocalImages ([⟨"inoyb/demo-a1", 10⟩, ⟨"inoyb/demo-b2", 30⟩,
          ⟨"inoyb/demo-c3", 20⟩] : List ImageInfo) none).take 1,
        a.created ≤ b.created) ∧
    (cleanupAttempts ([⟨"inoyb/demo-a1", 10⟩, ⟨"inoyb/demo-b2", 30⟩,
          ⟨"inoyb/demo-c3", 20⟩] : List ImageInfo) 5 = [] ∧
      cleanup_old_images (fun _ => true) ([⟨"inoyb/demo-a1", 10⟩, ⟨"inoyb/demo-b2", 30⟩,
          ⟨"inoyb/demo-c3", 20⟩] : List ImageInfo) 5 = 0) :=
  ⟨(cleanup_old_images_retention _ 1 3 "demo" (fun _ => true)
      (by decide) (by decide)).1 (by decide),
   (cleanup_old_images_retention _ 5 3 "demo" (fun _ => true)
      (by decide) (by decide)).2 (by decide)⟩

/-- C7 counterexample: in a group of three images with keep-count 1, the
first attempted removal fails and the second succeeds; the code keeps
counting after the failure and returns 1, whereas the claim's "stops
counting further successes" would give 0. -/
theorem cleanup_count_after_failure_cx :
    cleanupAttempts ([⟨"inoyb/proj-aa", 30⟩, ⟨"inoyb/proj-bb", 20⟩,
        ⟨"inoyb/proj-cc", 10⟩] : List ImageInfo) 1
      = [⟨"inoyb/proj-bb", 20⟩, ⟨"inoyb/proj-cc", 10⟩] ∧
    (fun n => n == "inoyb/proj-cc") "inoyb/proj-bb" = false ∧
    (fun n => n == "inoyb/proj-cc") "inoyb/proj-cc" = true ∧
    cleanup_old_images (fun n => n == "inoyb/proj-cc")
      ([⟨"inoyb/proj-aa", 30⟩, ⟨"inoyb/proj-bb", 20⟩,
        ⟨"inoyb/proj-cc", 10⟩] : List ImageInfo) 1 = 1 :=
  ⟨by decide, by decide, by decide, by decide⟩

/-- C7 amended: a failed removal stops neither the remaining attempts nor
the counting — pruning attempts every excess member of each over-threshold
group and the returned total is the number of attempted removals that
succeed, successes after a failure included. -/
theorem cleanup_count_is_successes :
    ∀ (removeOk : String → Bool) (raw : List ImageInfo) (keepCount : Nat),
      cleanup_old_images removeOk raw keepCount
        = ((cleanupAttempts raw keepCount).filter (fun i => removeOk i.name)).length := by
  intro removeOk raw keepCount
  by_cases h : (listLocalImages raw none).length ≤ keepCount
  · simp [cleanup_old_images, cleanupAttempts, h]
  · simp only [cleanup_old_images, cleanupAttempts, if_neg h]
    rw [cnt_foldl, attempts_foldl]
    simp

/-- C2 counterexample: a project directory missing every required entry.
The single classified failure enumerates only the three required files;
the equally missing model-assets directory is not among the reported
items. -/
theorem validate_project_missing_cx :
    validate_project ⟨[], none⟩
        = .error (.missingFiles ["gogogo.py", "mc.json", "requirements.txt"]) ∧
    findEntry ⟨[], none⟩ "model" = none ∧
    "model" ∉ ["gogogo.py", "mc.json", "requirements.txt"] ∧
    errorMessage (.missingFiles ["gogogo.py", "mc.json", "requirements.txt"])
        = "❌ 项目结构不正确，缺少必需文件: gogogo.py, mc.json, requirements.txt" :=
  ⟨rfl, rfl, by decide, rfl⟩

/-- C2 amended: validation reports all missing required files (entry-point,
manifest, dependency list) together in one classified failure — the
accumulated list is exactly the filter-map of the per-file check over the
required-file list, so no missing file is dropped — while the model-assets
directory is checked separately afterward: its absence is a distinct
failure raised only once the three required files are present. -/
theorem validate_project_missing_files :
    (∀ p : Proj, missingFilesOf p ≠ [] →
      validate_project p = .error (.missingFiles (missingFilesOf p))) ∧
    (∀ p : Proj, missingFilesOf p = requiredFiles.filterMap (missingMark p)) ∧
    (∀ (p : Proj) (f : String), f ∈ requiredFiles → findEntry p f = none →
      f ∈ missingFilesOf p) ∧
    (∀ p : Proj, missingFilesOf p = [] → findEntry p "model" = none →
      validate_project p = .error .missingModelDir) := by
  have h2 : ∀ p : Proj, missingFilesOf p = requiredFiles.filterMap (missingMark p) := by
    intro p
    simpa [missingFilesOf] using missing_foldl p requiredFiles []
  refine ⟨?_, h2, ?_, ?_⟩
  · intro p h
    have hne : (missingFilesOf p).isEmpty = false := by
      cases hm : missingFilesOf p with
      | nil => exact absurd hm h
      | cons a l => simp [hm]
    simp [validate_project, hne]
  · intro p f hf hfind
    rw [h2]
    exact List.mem_filterMap.mpr ⟨f, hf, by simp [missingMark, hfind]⟩
  · intro p h hm
    simp [validate_project, h, hm]

/-- Witness for C2 amended: a project with only the entry-point file (the
failure enumerates both other missing files), and a project with all three
files but no model directory (the separate model-directory failure). -/
theorem validate_project_missing_files_witness :
    validate_project ⟨[⟨"gogogo.py", false, []⟩], none⟩
        = .error (.missingFiles (missingFilesOf ⟨[⟨"gogogo.py", false, []⟩], none⟩)) ∧
    "mc.json" ∈ missingFilesOf ⟨[⟨"gogogo.py", false, []⟩], none⟩ ∧
    validate_project ⟨[⟨"gogogo.py", false, []⟩, ⟨"mc.json", false, []⟩,
        ⟨"requirements.txt", false, []⟩], none⟩ = .error .missingModelDir :=
  ⟨validate_project_missing_files.1 _ (by decide),
   validate_project_missing_files.2.2.1 _ "mc.json" (by decide) (by decide),
   validate_project_missing_files.2.2.2 _ (by decide) (by decide)⟩

/-- C4 counterexample: a non-string `model_info.name` and an empty-string
`model_info.name` fail with the same error and hence the same reported
reason, not distinct ones. -/
theorem mc_name_reason_cx :
    mcChecks (some (Json.obj [("model_info", Json.obj [("name", Json.num 1)])]))
        = .error .nameNotNonEmptyString ∧
    mcChecks (some (Json.obj [("model_info", Json.obj [("name", Json.str "")])]))
        = .error .nameNotNonEmptyString ∧
    errorMessage .nameNotNonEmptyString = "❌ mc.json中model_info.name必须是非空字符串" :=
  ⟨rfl, rfl, rfl⟩

/-- C4 amended: a manifest whose root object has an object `model_info`
with a non-empty string `name` passes; unreadable/unparseable manifest,
non-object root, missing `model_info`, non-object `model_info`, missing
`name`, non-string `name` and empty (or whitespace-only) `name` each fail,
with reasons distinct across the raise sites — except that non-string and
empty `name` share one raise site and hence one reason. -/
theorem mc_validation :
    (∀ (fields miFields : List (String × Json)) (s : String),
      lookupField fields "model_info" = some (Json.obj miFields) →
      lookupField miFields "name" = some (Json.str s) →
      pyStrip s ≠ "" →
      mcChecks (some (Json.obj fields)) = .ok ()) ∧
    mcChecks none = .error .mcJsonBad ∧
    mcChecks (some (Json.arr [])) = .error .rootNotObject ∧
    mcChecks (some (Json.obj [])) = .error .missingModelInfo ∧
    mcChecks (some (Json.obj [("model_info", Json.str "x")])) = .error .modelInfoNotObject ∧
    mcChecks (some (Json.obj [("model_info", Json.obj [])])) = .error .missingName ∧
    mcChecks (some (Json.obj [("model_info", Json.obj [("name", Json.num 7)])]))
        = .error .nameNotNonEmptyString ∧
    mcChecks (some (Json.obj [("model_info", Json.obj [("name", Json.str "   ")])]))
        = .error .nameNotNonEmptyString ∧
    List.Pairwise (fun a b => errorMessage a ≠ errorMessage b)
      [VError.mcJsonBad, VError.rootNotObject, VError.missingModelInfo,
       VError.modelInfoNotObject, VError.missingName, VError.nameNotNonEmptyString] := by
  refine ⟨?_, rfl, rfl, rfl, rfl, rfl, rfl, rfl, by decide⟩
  intro fields miFields s h1 h2 h3
  have hb : (pyStrip s == "") = false := beq_eq_false_iff_ne.mpr h3
  simp [mcChecks, jget, h1, h2, hb]

/-- Witness for C4 amended: a manifest with extra fields and the non-empty
name "demo model" passes. -/
theorem mc_validation_witness :
    mcChecks (some (Json.obj [("model_info", Json.obj [("name", Json.str "demo model"),
        ("version", Json.str "1")]), ("other", Json.num 2)])) = .ok () :=
  mc_validation.1
    [("model_info", Json.obj [("name", Json.str "demo model"), ("version", Json.str "1")]),
      ("other", Json.num 2)]
    [("name", Json.str "demo model"), ("version", Json.str "1")] "demo model"
    rfl rfl (by decide)

/-- C8 counterexample: setting the server address to the empty string and
reading it back — directly or after a restart — yields the default server
address, not the empty string that was set, because the getter tests the
override for Python truthiness. -/
theorem set_docker_host_empty_cx :
    ∃ s1, setDockerHost "" (initConfig none) = some s1 ∧
      getDockerHost s1.config = some (Json.str "tcp://docker.inoyb.com:2376") ∧
      getDockerHost (restart s1).config = some (Json.str "tcp://docker.inoyb.com:2376") ∧
      Json.str "tcp://docker.inoyb.com:2376" ≠ Json.str "" := by
  refine ⟨_, rfl, rfl, rfl, ?_⟩
  intro h
  injection h with h'
  exact absurd h' (by decide)

/-- C8 amended: for every non-empty server address, setting it persists
immediately and reading it back — also after a restart from disk — returns
exactly that address; clearing the override persists immediately and makes
the read return the configuration's default server address exactly
(setting the empty string is the one exception: it is falsy, so the read
falls back to the default). -/
theorem config_roundtrip (host : String) (topFields fields : List (String × Json)) (d : Disk)
    (hd : lookupField topFields "docker" = some (Json.obj fields)) (hh : host ≠ "") :
    ∃ s1, setDockerHost host ⟨Json.obj topFields, d⟩ = some s1 ∧
      s1.disk = some (some s1.config) ∧
      getDockerHost s1.config = some (Json.str host) ∧
      restart s1 = ⟨s1.config, s1.disk⟩ ∧
      getDockerHost (restart s1).config = some (Json.str host) ∧
      ∃ s2, setDefaultServer s1 = some s2 ∧
        s2.disk = some (some s2.config) ∧
        getDockerHost s2.config = lookupField fields "default_server" ∧
        getDockerHost (restart s2).config = lookupField fields "default_server" := by
  have hbne : (host != "") = true := by
    simp only [bne_iff_ne, ne_eq]
    exact hh
  have hset1 : setDockerHost host ⟨Json.obj topFields, d⟩
      = some ⟨Json.obj (setPairs topFields "docker"
          (Json.obj (setPairs fields "current_server" (Json.str host)))),
        some (some (Json.obj (setPairs topFields "docker"
          (Json.obj (setPairs fields "current_server" (Json.str host))))))⟩ := by
    simp [setDockerHost, jget, hd, jset, saveConfig]
  have hget1 : getDockerHost (Json.obj (setPairs topFields "docker"
      (Json.obj (setPairs fields "current_server" (Json.str host)))))
      = some (Json.str host) := by
    simp [getDockerHost, jget, lookupField_setPairs_self, truthy, hbne]
  have hset2 : setDefaultServer ⟨Json.obj (setPairs topFields "docker"
        (Json.obj (setPairs fields "current_server" (Json.str host)))),
      some (some (Json.obj (setPairs topFields "docker"
        (Json.obj (setPairs fields "current_server" (Json.str host))))))⟩
      = some ⟨Json.obj (setPairs (setPairs topFields "docker"
          (Json.obj (setPairs fields "current_server" (Json.str host)))) "docker"
          (Json.obj (setPairs (setPairs fields "current_server" (Json.str host))
            "current_server" Json.null))),
        some (some (Json.obj (setPairs (setPairs topFields "docker"
          (Json.obj (setPairs fields "current_server" (Json.str host)))) "docker"
          (Json.obj (setPairs (setPairs fields "current_server" (Json.str host))
            "current_server" Json.null)))))⟩ := by
    simp [setDefaultServer, jget, lookupField_setPairs_self, jset, saveConfig]
  have hget2 : getDockerHost (Json.obj (setPairs (setPairs topFields "docker"
        (Json.obj (setPairs fields "current_server" (Json.str host)))) "docker"
        (Json.obj (setPairs (setPairs fields "current_server" (Json.str host))
          "current_server" Json.null))))
      = lookupField fields "default_server" := by
    simp [getDockerHost, jget, lookupField_setPairs_self, truthy]
    rw [lookupField_setPairs_ne _ "current_server" _ "default_server" (by decide),
      lookupField_setPairs_ne _ "current_server" _ "default_server" (by decide)]
  exact ⟨_, hset1, rfl, hget1, rfl, hget1, _, hset2, rfl, hget2, hget2⟩

/-- Witness for C8 amended: a concrete configuration and the non-empty
address "tcp://new:2". -/
theorem config_roundtrip_witness :
    ∃ s1, setDockerHost "tcp://new:2" ⟨Json.obj [("docker", Json.obj
        [("default_server", Json.str "tcp://d:1"), ("current_server", Json.null)])], none⟩
        = some s1 ∧
      s1.disk = some (some s1.config) ∧
      getDockerHost s1.config = some (Json.str "tcp://new:2") ∧
      restart s1 = ⟨s1.config, s1.disk⟩ ∧
      getDockerHost (restart s1).config = some (Json.str "tcp://new:2") ∧
      ∃ s2, setDefaultServer s1 = some s2 ∧
        s2.disk = some (some s2.config) ∧
        getDockerHost s2.config = lookupField [("default_server", Json.str "tcp://d:1"),
          ("current_server", Json.null)] "default_server" ∧
        getDockerHost (restart s2).config = lookupField [("default_server", Json.str "tcp://d:1"),
          ("current_server", Json.null)] "default_server" :=
  config_roundtrip "tcp://new:2"
    [("docker", Json.obj [("default_server", Json.str "tcp://d:1"),
      ("current_server", Json.null)])]
    [("default_server", Json.str "tcp://d:1"), ("current_server", Json.null)]
    none rfl (by decide)

end Inoyb
